import Mathlib

/-!
Shallow embedding of the consul cluster provider
(src/cluster/consul/consul_provider.go) of protoactor-go.

The Go code talks to an external directory service (consul) and to an
event stream.  Every external call is modelled by an oracle argument
carrying the result the directory would return, and every function
additionally returns the list of external calls it issued, in order,
so that claims about "no directory call is made" or "exactly one
re-registration call" become statements about that trace.

The payload type of `cluster.MemberStatusValue` is opaque to the
provider; it is a type parameter `V`, with Go's `nil` modelled as
`Option.none`.  Durations are carried as plain naturals (their values
never influence control flow).  The `sync.WaitGroup` and goroutine
scheduling are concurrency and are not part of this embedding; the
body of each loop iteration is embedded as a pure state transformer.
-/

/-- Errors returned by the provider.  `shuttingDown` is the distinguished
`ProviderShuttingDownError`; every error coming back from a directory
call is opaque and carried as `dir msg`. -/
inductive PErr where
  | shuttingDown : PErr
  | dir : String → PErr
deriving DecidableEq, Repr

/-- One health check of a consul service entry (`api.HealthCheck`):
only the fields read by the provider / by `AggregatedStatus`. -/
structure HealthCheck where
  checkID : String
  status : String
deriving DecidableEq, Repr

/-- The service part of a consul health query answer (`api.AgentService`):
only the fields read by `notifyStatuses`.  `meta` is the `Meta` string
map, as an association list. -/
structure AgentService where
  address : String
  port : Nat
  tags : List String
  meta : List (String × String)
deriving DecidableEq, Repr

/-- One entry of a consul health query answer (`api.ServiceEntry`). -/
structure ServiceEntry where
  service : AgentService
  checks : List HealthCheck
deriving DecidableEq, Repr

/-- Query metadata of a consul blocking query (`api.QueryMeta`). -/
structure QueryMeta where
  lastIndex : Nat
deriving DecidableEq, Repr

/-- Go map read `m["StatusValue"]`: a missing key yields the zero value "". -/
def metaLookup (m : List (String × String)) (k : String) : String :=
  match m.find? (fun kv => kv.1 == k) with
  | some kv => kv.2
  | none => ""

def healthPassing : String := "passing"
def healthWarning : String := "warning"
def healthCritical : String := "critical"
def healthMaint : String := "maintenance"
def nodeMaint : String := "_node_maintenance"
def serviceMaintPre : String := "_service_maintenance:"

/-- `api.HealthChecks.AggregatedStatus` of the consul client library
(an external collaborator of this repository), embedded faithfully:
a forward pass accumulating the maintenance / critical / warning /
passing flags, with an early return "" on an unknown check status,
then the priority dispatch (empty and all-flags-false both yield
"passing").  `strings.HasPrefix` is taken at the character level. -/
def aggregate : List HealthCheck → Bool → Bool → Bool → Bool → String
  | [], maint, critical, warning, passing =>
      if maint then healthMaint
      else if critical then healthCritical
      else if warning then healthWarning
      else if passing then healthPassing
      else healthPassing
  | c :: rest, maint, critical, warning, passing =>
      if c.checkID == nodeMaint || serviceMaintPre.data.isPrefixOf c.checkID.data then
        aggregate rest true critical warning passing
      else if c.status == healthPassing then
        aggregate rest maint critical warning true
      else if c.status == healthWarning then
        aggregate rest maint critical true passing
      else if c.status == healthCritical then
        aggregate rest maint true warning passing
      else ""

def aggregatedStatus (checks : List HealthCheck) : String :=
  aggregate checks false false false false

/-- `cluster.MemberStatus` as assembled by `notifyStatuses`. -/
structure MemberStatus (V : Type) where
  memberID : String
  host : String
  port : Nat
  kinds : List String
  alive : Bool
  statusValue : Option V
deriving DecidableEq, Repr

/-- The consul `Provider` struct: every field of the Go struct that is
data (the consul client handle, the cluster pointer and the wait group
are runtime handles, not data; the two serializer methods are carried
as function fields). -/
structure Provider (V : Type) where
  deregistered : Bool
  shutdown : Bool
  id : String
  clusterName : String
  address : String
  port : Nat
  knownKinds : List String
  index : Nat
  ttl : Nat
  refreshTTL : Nat
  deregisterCritical : Nat
  blockingWaitTime : Nat
  statusValue : Option V
  serialize : Option V → String
  deserialize : String → Option V
  clusterError : Option PErr

/-- The full `api.AgentServiceRegistration` record submitted by
`registerService`: the provider overwrites every field on each call. -/
structure ServiceRegistration where
  id : String
  name : String
  tags : List String
  address : String
  port : Nat
  statusValueMeta : String
  deregisterCriticalAfter : Nat
  checkTTL : Nat
deriving DecidableEq, Repr

/-- One external call issued by the provider, in issue order. -/
inductive DirCall (V : Type) where
  | serviceRegister (reg : ServiceRegistration)
  | serviceDeregister (id : String)
  | updateTTL (checkID : String) (output : String) (status : String)
  | healthService (name : String) (waitIndex : Nat) (waitTime : Nat)
  | agentServices
  | publish (event : List (MemberStatus V))
  | sleep (d : Nat)
  | spawnUpdateTTL
deriving DecidableEq, Repr

/-- Go `fmt.Sprintf("%v@%v:%v", clusterName, address, port)`:
the id used at registration (join-scoped). -/
def joinID (clusterName address : String) (port : Nat) : String :=
  clusterName ++ "@" ++ address ++ ":" ++ toString port

/-- Go `fmt.Sprintf("%v/%v:%v", p.clusterName, v.Service.Address,
v.Service.Port)`: the member key built inside `notifyStatuses`
(watch-scoped). -/
def watchKey (clusterName address : String) (port : Nat) : String :=
  clusterName ++ "/" ++ address ++ ":" ++ toString port

/-- The registration record `registerService` builds from the provider. -/
def registration {V : Type} (p : Provider V) : ServiceRegistration :=
  { id := p.id
    name := p.clusterName
    tags := p.knownKinds
    address := p.address
    port := p.port
    statusValueMeta := p.serialize p.statusValue
    deregisterCriticalAfter := p.deregisterCritical
    checkTTL := p.ttl }

/-- `registerService`: submits the full registration; the oracle `res`
is the directory's answer. -/
def registerService {V : Type} (p : Provider V) (res : Option PErr) :
    Option PErr × List (DirCall V) :=
  (res, [DirCall.serviceRegister (registration p)])

/-- `deregisterService`: `ServiceDeregister(p.id)`. -/
def deregisterService {V : Type} (p : Provider V) (res : Option PErr) :
    Option PErr × List (DirCall V) :=
  (res, [DirCall.serviceDeregister p.id])

/-- `DeregisterMember`: on a directory error the error is returned and
no local state changes; on success the `deregistered` flag is set. -/
def DeregisterMember {V : Type} (p : Provider V) (res : Option PErr) :
    Provider V × Option PErr × List (DirCall V) :=
  let r := deregisterService p res
  match r.1 with
  | some e => (p, some e, r.2)
  | none => ({ p with deregistered := true }, none, r.2)

/-- `Shutdown`: no-op success when the flag is already set; otherwise
set the flag, then deregister unless already deregistered.  (The wait
on the TTL wait group is scheduling, not data.) -/
def Shutdown {V : Type} (p : Provider V) (deregRes : Option PErr) :
    Provider V × Option PErr × List (DirCall V) :=
  if p.shutdown then (p, none, [])
  else
    let p1 := { p with shutdown := true }
    if p1.deregistered then (p1, none, [])
    else DeregisterMember p1 deregRes

/-- `UpdateMemberStatusValue`: stores the new value first, then the nil
check, then the shutdown check, then a full re-registration. -/
def UpdateMemberStatusValue {V : Type} (p : Provider V) (v : Option V)
    (regRes : Option PErr) : Provider V × Option PErr × List (DirCall V) :=
  let p1 := { p with statusValue := v }
  if p1.statusValue.isNone then (p1, none, [])
  else if p1.shutdown then (p1, some PErr.shuttingDown, [])
  else
    let r := registerService p1 regRes
    (p1, r.1, r.2)

/-- `blockingUpdateTTL`: one TTL renewal
`UpdateTTL("service:"+p.id, "", api.HealthPassing)`; the result is also
stored in `clusterError`. -/
def blockingUpdateTTL {V : Type} (p : Provider V) (res : Option PErr) :
    Provider V × Option PErr × List (DirCall V) :=
  ({ p with clusterError := res }, res,
   [DirCall.updateTTL ("service:" ++ p.id) "" healthPassing])

/-- One iteration of the body of the `UpdateTTL` heartbeat loop
(entered with the shutdown flag unset).  Oracles: the TTL renewal
answer, the id set returned by `Agent().Services()` (the Go code
ignores that call's error and ranges over the possibly-nil map), and
the directory's answer to a re-registration.  The re-registration
error is only logged; every branch ends in a sleep and continues. -/
def updateTTLIter {V : Type} (p : Provider V) (ttlRes : Option PErr)
    (services : List String) (regRes : Option PErr) :
    Provider V × List (DirCall V) :=
  let r := blockingUpdateTTL p ttlRes
  let p1 := r.1
  match r.2.1 with
  | none => (p1, r.2.2 ++ [DirCall.sleep p1.refreshTTL])
  | some _ =>
    if services.contains p1.id then
      (p1, r.2.2 ++ [DirCall.agentServices, DirCall.sleep p1.refreshTTL])
    else
      let rr := registerService p1 regRes
      (p1, r.2.2 ++ [DirCall.agentServices] ++ rr.2 ++
        [DirCall.sleep p1.refreshTTL])

/-- The Go loop `for i, v := range statuses { ...; if memberID == p.id
{ p.knownKinds = v.Service.Tags } }` restricted to its `knownKinds`
effect: the final value of the field after the pass. -/
def foldKinds (clusterName id : String) (kinds : List String) :
    List ServiceEntry → List String
  | [] => kinds
  | v :: rest =>
      foldKinds clusterName id
        (if watchKey clusterName v.service.address v.service.port == id
         then v.service.tags else kinds) rest

/-- The `cluster.MemberStatus` assembled for one service entry. -/
def memberStatusOf {V : Type} (p : Provider V) (v : ServiceEntry) :
    MemberStatus V :=
  { memberID := watchKey p.clusterName v.service.address v.service.port
    host := v.service.address
    port := v.service.port
    kinds := v.service.tags
    alive := decide (0 < v.checks.length) &&
      (aggregatedStatus v.checks == healthPassing)
    statusValue := p.deserialize (metaLookup v.service.meta "StatusValue") }

/-- `notifyStatuses`: one blocking health query.  On error: log and
return, nothing changes and nothing is published.  On success: advance
the index, build one `MemberStatus` per returned entry in order,
refresh `knownKinds` on a key match, publish the whole batch once.
The middle component is the published snapshot (`none` when nothing
was published). -/
def notifyStatuses {V : Type} (p : Provider V)
    (q : Except PErr (List ServiceEntry × QueryMeta)) :
    Provider V × Option (List (MemberStatus V)) × List (DirCall V) :=
  let call : DirCall V :=
    DirCall.healthService p.clusterName p.index p.blockingWaitTime
  match q with
  | Except.error _ => (p, none, [call])
  | Except.ok sm =>
    let statuses := sm.1
    let res := statuses.map (memberStatusOf p)
    let p2 := { p with
      index := sm.2.lastIndex
      knownKinds := foldKinds p.clusterName p.id p.knownKinds statuses }
    (p2, some res, [call, DirCall.publish res])

/-- `blockingStatusChange` is a direct call of `notifyStatuses`. -/
def blockingStatusChange {V : Type} (p : Provider V)
    (q : Except PErr (List ServiceEntry × QueryMeta)) :
    Provider V × Option (List (MemberStatus V)) × List (DirCall V) :=
  notifyStatuses p q

/-- The watcher loop of `MonitorMemberStatusChanges`: checks the
shutdown flag, then runs `notifyStatuses`, consuming one query oracle
per iteration; collects the published snapshots in order. -/
def monitorLoop {V : Type} (p : Provider V) :
    List (Except PErr (List ServiceEntry × QueryMeta)) →
    Provider V × List (List (MemberStatus V))
  | [] => (p, [])
  | q :: rest =>
    if p.shutdown then (p, [])
    else
      let r := notifyStatuses p q
      let rec2 := monitorLoop r.1 rest
      (rec2.1,
        (match r.2.1 with | some snap => [snap] | none => []) ++ rec2.2)

/-- `RegisterMember`: capture the join parameters, register, and on
success force one synchronous TTL renewal, then one synchronous
status change, then spawn the heartbeat loop.  Each failing step
returns its error at once, issuing none of the later calls. -/
def RegisterMember {V : Type} (p : Provider V) (clusterName address : String)
    (port : Nat) (knownKinds : List String) (statusValue : Option V)
    (ser : Option V → String) (de : String → Option V)
    (regRes ttlRes : Option PErr)
    (q : Except PErr (List ServiceEntry × QueryMeta)) :
    Provider V × Option PErr × List (DirCall V) :=
  let p0 := { p with
    id := joinID clusterName address port
    clusterName := clusterName
    address := address
    port := port
    knownKinds := knownKinds
    statusValue := statusValue
    serialize := ser
    deserialize := de }
  let r := registerService p0 regRes
  match r.1 with
  | some e => (p0, some e, r.2)
  | none =>
    let t := blockingUpdateTTL p0 ttlRes
    match t.2.1 with
    | some e => (t.1, some e, r.2 ++ t.2.2)
    | none =>
      let s := blockingStatusChange t.1 q
      (s.1, none, r.2 ++ t.2.2 ++ s.2.2 ++ [DirCall.spawnUpdateTTL])

/-- `GetHealthStatus`. -/
def GetHealthStatus {V : Type} (p : Provider V) : Option PErr :=
  p.clusterError

/-- The provider operations that can touch its state, with their
oracle inputs; used to state invariants over every operation. -/
inductive Op (V : Type) where
  | registerMember (clusterName address : String) (port : Nat)
      (kinds : List String) (sv : Option V) (ser : Option V → String)
      (de : String → Option V) (regRes ttlRes : Option PErr)
      (q : Except PErr (List ServiceEntry × QueryMeta))
  | deregisterMember (res : Option PErr)
  | shutdownOp (res : Option PErr)
  | updateStatus (v : Option V) (res : Option PErr)
  | ttlIter (ttlRes : Option PErr) (services : List String)
      (regRes : Option PErr)
  | notify (q : Except PErr (List ServiceEntry × QueryMeta))

/-- The state reached by running one operation. -/
def runOp {V : Type} (p : Provider V) : Op V → Provider V
  | Op.registerMember cn a port kinds sv ser de regRes ttlRes q =>
      (RegisterMember p cn a port kinds sv ser de regRes ttlRes q).1
  | Op.deregisterMember res => (DeregisterMember p res).1
  | Op.shutdownOp res => (Shutdown p res).1
  | Op.updateStatus v res => (UpdateMemberStatusValue p v res).1
  | Op.ttlIter ttlRes services regRes =>
      (updateTTLIter p ttlRes services regRes).1
  | Op.notify q => (notifyStatuses p q).1

/-- Number of registration calls in a trace. -/
def countRegisterCalls {V : Type} (cs : List (DirCall V)) : Nat :=
  cs.countP (fun c => match c with
    | DirCall.serviceRegister _ => true
    | _ => false)

/-! ## Concrete fixtures -/

/-- Identity-style status serializer for concrete runs. -/
def exSer : Option String → String
  | some s => s
  | none => ""

def exDe : String → Option String := fun s => some s

/-- A provider as `NewWithConfig` builds it (durations in seconds). -/
def freshProvider : Provider String :=
  { deregistered := false
    shutdown := false
    id := ""
    clusterName := ""
    address := ""
    port := 0
    knownKinds := []
    index := 0
    ttl := 3
    refreshTTL := 1
    deregisterCritical := 60
    blockingWaitTime := 20
    statusValue := none
    serialize := exSer
    deserialize := exDe
    clusterError := none }

/-- The provider after a successful join of cluster `mycluster` at
`127.0.0.1:8000` with kinds `["A", "B"]` (every directory call
succeeds; the forced first watch answer is empty). -/
def joinedProvider : Provider String :=
  (RegisterMember freshProvider "mycluster" "127.0.0.1" 8000 ["A", "B"]
    none exSer exDe none none (Except.ok ([], ⟨1⟩))).1

/-- The directory record of this very instance as a later watch
response reports it: same address and port, kinds shrunk to `["A"]`,
one passing TTL check. -/
def selfEntry : ServiceEntry :=
  { service :=
      { address := "127.0.0.1"
        port := 8000
        tags := ["A"]
        meta := [("StatusValue", "")] }
    checks := [{ checkID := "service:mycluster@127.0.0.1:8000"
                 status := healthPassing }] }

/-! ## Supporting lemmas -/

/-- The watch-scoped key and the join-scoped id differ at the character
right after the (shared) cluster name: "/" versus "@". -/
theorem watchKey_ne_joinID (cn a b : String) (x y : Nat) :
    watchKey cn a x ≠ joinID cn b y := by
  intro h
  have hd := congrArg String.data h
  simp only [watchKey, joinID, String.data_append, List.append_assoc] at hd
  have h2 := List.append_cancel_left hd
  rw [List.singleton_append, List.singleton_append] at h2
  exact absurd (List.head_eq_of_cons_eq h2) (by decide)

/-! ## Claim theorems -/

/-- Claim C4: `UpdateMemberStatusValue` with a nil status returns
success without any directory call; with a non-nil status while the
shutdown flag is set it returns `ProviderShuttingDownError` without
any directory call; with a non-nil status while not shutting down it
re-submits the full registration record built from the updated
provider (overwrite, not a partial patch) and returns the directory's
answer. -/
theorem C4_updateStatus_paths {V : Type} (p : Provider V) (v : Option V)
    (r : Option PErr) :
    (v = none →
      UpdateMemberStatusValue p v r = ({ p with statusValue := v }, none, [])) ∧
    (v.isSome = true → p.shutdown = true →
      UpdateMemberStatusValue p v r =
        ({ p with statusValue := v }, some PErr.shuttingDown, [])) ∧
    (v.isSome = true → p.shutdown = false →
      UpdateMemberStatusValue p v r =
        ({ p with statusValue := v }, r,
         [DirCall.serviceRegister (registration { p with statusValue := v })])) := by
  refine ⟨?_, ?_, ?_⟩ <;> intro h
  · subst h; simp [UpdateMemberStatusValue]
  · intro hs; cases v with
    | none => simp at h
    | some a => simp [UpdateMemberStatusValue, hs]
  · intro hs; cases v with
    | none => simp at h
    | some a => simp [UpdateMemberStatusValue, hs, registerService]

/-- Witness for C4 at a concrete provider: the nil no-op, the
shutting-down rejection, and the happy-path re-registration. -/
theorem C4_updateStatus_paths_witness :
    UpdateMemberStatusValue freshProvider (none : Option String) none =
      ({ freshProvider with statusValue := none }, none, []) ∧
    UpdateMemberStatusValue { freshProvider with shutdown := true }
        (some "v") none =
      ({ freshProvider with shutdown := true, statusValue := some "v" },
       some PErr.shuttingDown, []) ∧
    UpdateMemberStatusValue freshProvider (some "v") none =
      ({ freshProvider with statusValue := some "v" }, none,
       [DirCall.serviceRegister
          (registration { freshProvider with statusValue := some "v" })]) :=
  ⟨(C4_updateStatus_paths freshProvider none none).1 rfl,
   (C4_updateStatus_paths { freshProvider with shutdown := true }
      (some "v") none).2.1 rfl rfl,
   (C4_updateStatus_paths freshProvider (some "v") none).2.2 rfl rfl⟩

/-- Claim C5: `Shutdown` is idempotent.  A first call whose
deregistration succeeds returns success; afterwards the shutdown flag
is set, and a second call (whatever its oracle) performs no directory
call, changes no state, and returns success. -/
theorem C5_shutdown_idempotent {V : Type} (p : Provider V) (r' : Option PErr) :
    (Shutdown p none).2.1 = none ∧
    (Shutdown p none).1.shutdown = true ∧
    Shutdown (Shutdown p none).1 r' = ((Shutdown p none).1, none, []) := by
  by_cases hs : p.shutdown <;> by_cases hd : p.deregistered <;>
    simp [Shutdown, DeregisterMember, deregisterService, hs, hd]

/-- Claim C9: if the initial registration call fails during join,
`RegisterMember` returns that very error after having issued exactly
the one registration call: no TTL renewal, no health query, no
publication and no heartbeat task appear in the trace. -/
theorem C9_register_fail_fast {V : Type} (p : Provider V) (cn a : String)
    (port : Nat) (kinds : List String) (sv : Option V)
    (ser : Option V → String) (de : String → Option V) (e : PErr)
    (ttlRes : Option PErr) (q : Except PErr (List ServiceEntry × QueryMeta)) :
    RegisterMember p cn a port kinds sv ser de (some e) ttlRes q =
      ({ p with
          id := joinID cn a port
          clusterName := cn
          address := a
          port := port
          knownKinds := kinds
          statusValue := sv
          serialize := ser
          deserialize := de },
       some e,
       [DirCall.serviceRegister (registration { p with
          id := joinID cn a port
          clusterName := cn
          address := a
          port := port
          knownKinds := kinds
          statusValue := sv
          serialize := ser
          deserialize := de })]) := rfl

/-- Claim C10: `UpdateMemberStatusValue` stores its argument into the
provider before the nil and shutdown checks, so on every path —
success, nil no-op, and the `ShuttingDownError` path — the stored
status value equals the argument, and any later registration record
built from the resulting provider serializes exactly that argument. -/
theorem C10_statusValue_always_overwritten {V : Type} (p : Provider V)
    (v : Option V) (r : Option PErr) :
    ((UpdateMemberStatusValue p v r).1).statusValue = v ∧
    (registration (UpdateMemberStatusValue p v r).1).statusValueMeta =
      p.serialize v := by
  cases v with
  | none => exact ⟨rfl, rfl⟩
  | some a =>
      by_cases hs : p.shutdown <;>
        simp [UpdateMemberStatusValue, hs, registerService, registration]

/-- Claim C2: in a heartbeat-loop iteration whose TTL renewal fails,
the provider lists the directory's services; when its own id is
present it issues no re-registration, and when it is absent it issues
exactly one re-registration, in both cases sleeping and continuing
afterwards; the iteration's outcome does not depend on whether the
re-registration succeeded. -/
theorem C2_heartbeat_selfheal {V : Type} (p : Provider V) (e : PErr)
    (services : List String) (r r' : Option PErr) :
    (services.contains p.id = true →
      updateTTLIter p (some e) services r =
        ({ p with clusterError := some e },
         [DirCall.updateTTL ("service:" ++ p.id) "" healthPassing,
          DirCall.agentServices, DirCall.sleep p.refreshTTL])) ∧
    (services.contains p.id = false →
      updateTTLIter p (some e) services r =
        ({ p with clusterError := some e },
         [DirCall.updateTTL ("service:" ++ p.id) "" healthPassing,
          DirCall.agentServices,
          DirCall.serviceRegister
            (registration { p with clusterError := some e }),
          DirCall.sleep p.refreshTTL])) ∧
    countRegisterCalls (updateTTLIter p (some e) services r).2 =
      (if services.contains p.id then 0 else 1) ∧
    updateTTLIter p (some e) services r =
      updateTTLIter p (some e) services r' := by
  by_cases h : p.id ∈ services
  · have hc : services.contains p.id = true := by simpa using h
    simp [updateTTLIter, blockingUpdateTTL, registerService,
      countRegisterCalls, List.countP_cons, List.countP_nil, h, hc]
  · have hc : services.contains p.id = false := by simpa using h
    simp [updateTTLIter, blockingUpdateTTL, registerService,
      countRegisterCalls, List.countP_cons, List.countP_nil, h, hc]

/-- Witness for C2: with an absent id the failing iteration issues
exactly one re-registration; with the id present it issues none. -/
theorem C2_heartbeat_selfheal_witness :
    updateTTLIter freshProvider (some (PErr.dir "boom")) [] none =
      ({ freshProvider with clusterError := some (PErr.dir "boom") },
       [DirCall.updateTTL ("service:" ++ freshProvider.id) "" healthPassing,
        DirCall.agentServices,
        DirCall.serviceRegister
          (registration { freshProvider with
            clusterError := some (PErr.dir "boom") }),
        DirCall.sleep freshProvider.refreshTTL]) ∧
    updateTTLIter freshProvider (some (PErr.dir "boom"))
        [freshProvider.id] none =
      ({ freshProvider with clusterError := some (PErr.dir "boom") },
       [DirCall.updateTTL ("service:" ++ freshProvider.id) "" healthPassing,
        DirCall.agentServices, DirCall.sleep freshProvider.refreshTTL]) :=
  ⟨(C2_heartbeat_selfheal freshProvider (PErr.dir "boom") [] none none).2.1 rfl,
   (C2_heartbeat_selfheal freshProvider (PErr.dir "boom")
      [freshProvider.id] none none).1 (by simp)⟩

/-- Claim C3: the `Alive` field of an assembled `MemberStatus` is true
iff the entry has at least one health check and the aggregated status
of its checks is "passing"; in particular it is false for an entry
with zero checks. -/
theorem C3_alive_iff {V : Type} (p : Provider V) (v : ServiceEntry) :
    ((memberStatusOf p v).alive = true ↔
      0 < v.checks.length ∧ aggregatedStatus v.checks = healthPassing) ∧
    (v.checks = [] → (memberStatusOf p v).alive = false) := by
  constructor
  · simp [memberStatusOf]
  · intro h; simp [memberStatusOf, h]

set_option maxRecDepth 8000 in
/-- Witness for C3: one passing check makes a member alive; dropping
all checks makes the same member not alive. -/
theorem C3_alive_iff_witness :
    (memberStatusOf freshProvider selfEntry).alive = true ∧
    (memberStatusOf freshProvider
        { selfEntry with checks := [] }).alive = false :=
  ⟨((C3_alive_iff freshProvider selfEntry).1).mpr ⟨by decide, by decide⟩,
   (C3_alive_iff freshProvider { selfEntry with checks := [] }).2 rfl⟩

/-- Claim C7: when the blocking health query fails, `notifyStatuses`
returns with the provider untouched (in particular the watch cursor
`index` is unchanged) and publishes nothing, and the watcher loop
simply proceeds to its next iteration on the same state — the error
is absorbed, not propagated. -/
theorem C7_watch_error_resilient {V : Type} (p : Provider V) (e : PErr)
    (rest : List (Except PErr (List ServiceEntry × QueryMeta)))
    (h : p.shutdown = false) :
    notifyStatuses p (Except.error e) =
      (p, none,
       [DirCall.healthService p.clusterName p.index p.blockingWaitTime]) ∧
    monitorLoop p (Except.error e :: rest) = monitorLoop p rest := by
  refine ⟨rfl, ?_⟩
  simp [monitorLoop, h, notifyStatuses]

/-- Witness for C7 on a concrete provider and query error. -/
theorem C7_watch_error_resilient_witness :
    monitorLoop freshProvider [Except.error (PErr.dir "boom")] =
      monitorLoop freshProvider [] :=
  (C7_watch_error_resilient freshProvider (PErr.dir "boom") [] rfl).2

/-- Claim C8: a successful watch iteration publishes exactly one
snapshot, as one batch, holding one `MemberStatus` per returned
instance — same length, same positions, each built from the instance
at the same position of the very query answer, with nothing merged in
from anywhere else. -/
theorem C8_snapshot_atomic {V : Type} (p : Provider V)
    (statuses : List ServiceEntry) (meta : QueryMeta) :
    (notifyStatuses p (Except.ok (statuses, meta))).2.1 =
      some (statuses.map (memberStatusOf p)) ∧
    (statuses.map (memberStatusOf p)).length = statuses.length ∧
    (∀ i : Nat, (statuses.map (memberStatusOf p))[i]? =
      (statuses[i]?).map (memberStatusOf p)) ∧
    (notifyStatuses p (Except.ok (statuses, meta))).2.2 =
      [DirCall.healthService p.clusterName p.index p.blockingWaitTime,
       DirCall.publish (statuses.map (memberStatusOf p))] := by
  refine ⟨rfl, by simp, ?_, rfl⟩
  intro i
  simp

/-- No run of `updateTTLIter` changes anything but `clusterError`. -/
theorem updateTTLIter_fst {V : Type} (p : Provider V) (t : Option PErr)
    (s : List String) (r : Option PErr) :
    (updateTTLIter p t s r).1 = { p with clusterError := t } := by
  cases t with
  | none => rfl
  | some e =>
      unfold updateTTLIter blockingUpdateTTL
      dsimp only
      split <;> rfl

/-- The flags can move from false to true but never back: running any
single provider operation preserves a true `shutdown` and a true
`deregistered` flag. -/
theorem runOp_flags_mono {V : Type} (p : Provider V) (op : Op V) :
    ((runOp p op).shutdown = p.shutdown ∨ (runOp p op).shutdown = true) ∧
    ((runOp p op).deregistered = p.deregistered ∨
      (runOp p op).deregistered = true) := by
  cases op with
  | registerMember cn a port kinds sv ser de regRes ttlRes q =>
      cases regRes with
      | some e => exact ⟨Or.inl rfl, Or.inl rfl⟩
      | none =>
        cases ttlRes with
        | some e => exact ⟨Or.inl rfl, Or.inl rfl⟩
        | none => cases q <;> exact ⟨Or.inl rfl, Or.inl rfl⟩
  | deregisterMember res =>
      cases res with
      | some e => exact ⟨Or.inl rfl, Or.inl rfl⟩
      | none => exact ⟨Or.inl rfl, Or.inr rfl⟩
  | shutdownOp res =>
      by_cases hs : p.shutdown <;> by_cases hd : p.deregistered <;>
        cases res <;>
        simp [runOp, Shutdown, DeregisterMember, deregisterService, hs, hd]
  | updateStatus v res =>
      cases v <;> by_cases hs : p.shutdown <;>
        simp [runOp, UpdateMemberStatusValue, registerService, hs]
  | ttlIter t s r =>
      have h := updateTTLIter_fst p t s r
      simp [runOp, h]
  | notify q => cases q <;> exact ⟨Or.inl rfl, Or.inl rfl⟩

/-- Claim C6: the `shutdown` and `deregistered` flags are monotonic
across every provider operation — once true they stay true — and a
failed directory deregistration leaves the provider (in particular
the `deregistered` flag) unchanged, while only a successful one sets
the flag. -/
theorem C6_flags_monotonic {V : Type} (p : Provider V) (op : Op V) (e : PErr) :
    (p.shutdown = true → (runOp p op).shutdown = true) ∧
    (p.deregistered = true → (runOp p op).deregistered = true) ∧
    (DeregisterMember p (some e)).1 = p ∧
    (DeregisterMember p none).1.deregistered = true := by
  refine ⟨fun h => ?_, fun h => ?_, rfl, rfl⟩
  · rcases (runOp_flags_mono p op).1 with h1 | h1
    · rw [h1]; exact h
    · exact h1
  · rcases (runOp_flags_mono p op).2 with h1 | h1
    · rw [h1]; exact h
    · exact h1

/-- Witness for C6: a provider with both flags already set keeps them
set across a watch iteration, and a failed deregistration leaves a
fresh provider untouched. -/
theorem C6_flags_monotonic_witness :
    (runOp { freshProvider with shutdown := true, deregistered := true }
      (Op.notify (Except.error (PErr.dir "x")))).shutdown = true ∧
    (runOp { freshProvider with shutdown := true, deregistered := true }
      (Op.notify (Except.error (PErr.dir "x")))).deregistered = true ∧
    (DeregisterMember freshProvider (some (PErr.dir "x"))).1 = freshProvider :=
  ⟨(C6_flags_monotonic
      { freshProvider with shutdown := true, deregistered := true }
      (Op.notify (Except.error (PErr.dir "x"))) (PErr.dir "x")).1 rfl,
   (C6_flags_monotonic
      { freshProvider with shutdown := true, deregistered := true }
      (Op.notify (Except.error (PErr.dir "x"))) (PErr.dir "x")).2.1 rfl,
   (C6_flags_monotonic freshProvider
      (Op.notify (Except.error (PErr.dir "x"))) (PErr.dir "x")).2.2.1⟩

set_option maxRecDepth 8000 in
/-- Claim C1 (code-bug evaluation): after joining cluster "mycluster"
at 127.0.0.1:8000 with kinds ["A", "B"], a watch response showing this
very instance with kinds ["A"] does NOT refresh the locally cached
kinds.  The watch-scoped key (clusterName, then "/", then
address:port) can never equal the registered id (clusterName, then
"@", then address:port), so the refresh branch of `notifyStatuses` is
dead code and `knownKinds` stays ["A", "B"] instead of becoming
["A"]. -/
theorem C1_kinds_never_refreshed :
    (∀ (cn a b : String) (x y : Nat),
      decide (watchKey cn a x = joinID cn b y) = false) ∧
    joinedProvider.id = joinID "mycluster" "127.0.0.1" 8000 ∧
    joinedProvider.knownKinds = ["A", "B"] ∧
    ((notifyStatuses joinedProvider
        (Except.ok ([selfEntry], ⟨2⟩))).1).knownKinds = ["A", "B"] ∧
    decide ((["A", "B"] : List String) = ["A"]) = false := by
  refine ⟨?_, rfl, rfl, ?_, by decide⟩
  · intro cn a b x y
    exact decide_eq_false (watchKey_ne_joinID cn a b x y)
  · rfl
